import Mathlib

/-!
Verification of the path-resolution and upload subsystem of the gdrive CLI
(`src/files/path_utils.rs`, `src/files/upload.rs`,
`src/files/upload_with_check.rs`, `src/main.rs`).

The Rust functions are shallowly embedded as pure Lean functions.  The remote
Drive API (the "Gateway": `files::list::list_files`, `files::info::get_file`,
`files::mkdir::create_directory`, the upload requests issued by `upload_file`)
and the local filesystem are modelled as explicit oracles (`Gateway`,
`LocalFs`) whose answers the embedded functions consume; every embedded
operation additionally returns the list of Gateway calls it issued, in order,
so temporal properties (which calls happen, and when) can be stated.
-/

namespace Gdrive

/-- A remote Drive object as used by the embedded code: `google_drive3::api::File`
restricted to the fields the subsystem reads (`id`, `name`). -/
structure DriveFile where
  id : Option String
  name : Option String
  deriving DecidableEq, Repr

/-- The `PathResolutionError` enum from `src/files/path_utils.rs` (lines 202-211). -/
inductive PathResolutionError where
  | invalidPath
  | notFound (part : String)
  | apiError (e : String)
  | invalidWildcard (e : String)
  | noMatchesFound (pat : String)
  | createDirectoryError (e : String)
  | missingId
  deriving DecidableEq, Repr

/-- Which upload request `upload_file` issues: `req.upload(..)` (single-shot)
or `req.upload_resumable(..)` (chunked/resumable), `src/files/upload.rs`
lines 292-296. -/
inductive UploadMethod where
  | simple
  | resumable
  deriving DecidableEq, Repr

/-- The `FileInfo` struct (`src/common/file_info.rs`, not under `src/`).
Modelled from the spec: the metadata submitted with an upload — name,
MIME type, parent identifiers, byte size. -/
structure FileInfo where
  name : String
  mimeType : String
  parents : Option (List String)
  size : Nat
  deriving DecidableEq, Repr

/-- The `ChunkSize` type (`src/common/delegate.rs`, not under `src/`).
Modelled from the spec: a configurable power-of-two number of megabytes;
`in_bytes` converts to bytes.  The concrete default value is not given by the
spec; it is fixed arbitrarily here (no theorem depends on it). -/
structure ChunkSize where
  mb : Nat
  deriving DecidableEq, Repr

def ChunkSize.inBytes (c : ChunkSize) : Nat := c.mb * 1048576

instance : Inhabited ChunkSize := ⟨⟨8⟩⟩

/-- The `BackoffConfig` struct (`src/common/delegate.rs`, not under `src/`).
Modelled from the spec: max attempts, min delay, max delay (delays in
seconds). -/
structure BackoffConfig where
  maxRetries : Nat
  minSleepSecs : Nat
  maxSleepSecs : Nat
  deriving DecidableEq, Repr

/-- Modelled from the spec: the default backoff policy used by
`UploadDelegateConfig::default()`; the concrete numbers are not given by the
spec and are fixed arbitrarily (no theorem depends on them). -/
instance : Inhabited BackoffConfig := ⟨⟨100000, 1, 60⟩⟩

/-- The `UploadDelegateConfig` struct (`src/common/delegate.rs`, not under `src/`).
Modelled from the spec: chunk size, backoff policy and the two chunk
diagnostic flags, injected into every upload call. -/
structure UploadDelegateConfig where
  chunkSize : ChunkSize
  backoffConfig : BackoffConfig
  printChunkErrors : Bool
  printChunkInfo : Bool
  deriving DecidableEq, Repr

/-- Modelled from the spec: `UploadDelegateConfig::default()`, used at
`src/files/upload_with_check.rs` line 80 (`Default::default()`). -/
instance : Inhabited UploadDelegateConfig :=
  ⟨⟨default, default, false, false⟩⟩

/-- The `Config` struct from `src/files/upload.rs` lines 26-35.  `file_path` (a
`PathBuf`) is modelled as an opaque string. -/
structure Config where
  filePath : String
  mimeType : Option String
  parents : Option (List String)
  chunkSize : ChunkSize
  printChunkErrors : Bool
  printChunkInfo : Bool
  uploadDirectories : Bool
  printOnlyId : Bool
  deriving DecidableEq, Repr

/-- One Gateway call, as recorded in the call traces of the embedded
functions.
* `getFile id` — `files::info::get_file(hub, id)`;
* `find parent name` — `files::list::list_files` with the query
  naming `parent` as parent, `name` as exact name and `trashed = false`,
  with `max_files: 1`;
* `children parent limit` — `files::list::list_files` with the query naming
  only `parent` as parent and `trashed = false`, with `max_files: limit`;
* `createFolder name parent` — `files::mkdir::create_directory` for a folder
  called `name` under `parent`;
* `upload m fileId info` — the `files().create(..)` request issued by
  `upload_file`, with `m` recording whether `upload_resumable` or `upload`
  was used. -/
inductive GCall where
  | getFile (id : String)
  | find (parentId name : String)
  | children (parentId : String) (limit : Nat)
  | createFolder (name parentId : String)
  | upload (m : UploadMethod) (fileId : Option String) (info : FileInfo)
  deriving DecidableEq, Repr

/-- The remote Gateway oracle.  Each field answers one kind of call
(arguments as in `GCall`); `ListQuery::from_str` (not under `src/`) is
modelled as total, the query being represented by the arguments it is built
from.  Answers are pure functions of the arguments: the store is treated as
one unchanging snapshot during a single embedded run. -/
structure Gateway where
  getFile : String → Except String DriveFile
  find : String → String → Except String (List DriveFile)
  children : String → Nat → Except String (List DriveFile)
  createFolder : String → String → Except String DriveFile
  doUpload : UploadMethod → Option String → FileInfo → Except String DriveFile

/-- Rust `path.trim_matches('/')`: strip leading and trailing `/`. -/
def trimSlashes (s : String) : String :=
  ⟨((s.data.dropWhile (· = '/')).reverse.dropWhile (· = '/')).reverse⟩

/-- Rust `split(sep)` on a character list: `acc` accumulates the current
piece (reversed); every separator ends a piece, and the final piece is
emitted at the end of input (so the empty input yields one empty piece,
exactly like Rust `"".split('/')`). -/
def splitCharsGo (sep : Char) : List Char → List Char → List (List Char)
  | acc, [] => [acc.reverse]
  | acc, c :: cs =>
    if c = sep then acc.reverse :: splitCharsGo sep [] cs
    else splitCharsGo sep (c :: acc) cs

/-- Rust `path.trim_matches('/').split('/').filter(|s| !s.is_empty())` — the
segment list of a path (`path_utils.rs` lines 10, 50, 107). -/
def splitPath (path : String) : List String :=
  ((splitCharsGo '/' [] (trimSlashes path).data).map (fun cs => (⟨cs⟩ : String))).filter
    (fun s => s ≠ "")

/-- The per-segment loop of `resolve_path` (`path_utils.rs` lines 20-42):
for each segment, issue a `find` query under the current object; a returned
file becomes the new current object, no file fails with `NotFound(segment)`.
Returns the result together with the trace of Gateway calls issued. -/
def resolveLoop (gw : Gateway) :
    List String → String → DriveFile →
    Except PathResolutionError DriveFile × List GCall
  | [], _, cur => (.ok cur, [])
  | seg :: rest, curId, _ =>
    match gw.find curId seg with
    | .error e => (.error (.apiError e), [.find curId seg])
    | .ok files =>
      match files.head? with
      | none => (.error (.notFound seg), [.find curId seg])
      | some f =>
        let (r, t) := resolveLoop gw rest (f.id.getD "") f
        (r, .find curId seg :: t)

/-- The function `resolve_path` (`path_utils.rs` lines 9-45): split the path; an empty
segment list is `InvalidPath`; otherwise fetch the root object and walk the
segments with `resolveLoop`. -/
def resolvePath (gw : Gateway) (path : String) :
    Except PathResolutionError DriveFile × List GCall :=
  let parts := splitPath path
  if parts.isEmpty then
    (.error .invalidPath, [])
  else
    match gw.getFile "root" with
    | .error e => (.error (.apiError e), [.getFile "root"])
    | .ok root =>
      let (r, t) := resolveLoop gw parts "root" root
      (r, .getFile "root" :: t)

/-- The per-segment loop of `resolve_or_create_path` (`path_utils.rs`
lines 63-99): like `resolveLoop`, but a segment with no match is created
with `createFolder` under the current object; a created folder with no `id`
is the hard error `MissingId`, otherwise the walk continues from the created
folder. -/
def rocLoop (gw : Gateway) :
    List String → String → DriveFile →
    Except PathResolutionError DriveFile × List GCall
  | [], _, cur => (.ok cur, [])
  | seg :: rest, curId, _ =>
    match gw.find curId seg with
    | .error e => (.error (.apiError e), [.find curId seg])
    | .ok files =>
      match files.head? with
      | some f =>
        let (r, t) := rocLoop gw rest (f.id.getD "") f
        (r, .find curId seg :: t)
      | none =>
        match gw.createFolder seg curId with
        | .error e =>
          (.error (.createDirectoryError e),
           [.find curId seg, .createFolder seg curId])
        | .ok nf =>
          match nf.id with
          | none => (.error .missingId, [.find curId seg, .createFolder seg curId])
          | some nid =>
            let (r, t) := rocLoop gw rest nid nf
            (r, .find curId seg :: .createFolder seg curId :: t)

/-- The function `resolve_or_create_path` (`path_utils.rs` lines 48-102): an empty
segment list returns the root object (fetched with `get_file`); otherwise
fetch root and walk with `rocLoop`. -/
def resolveOrCreatePath (gw : Gateway) (path : String) :
    Except PathResolutionError DriveFile × List GCall :=
  let parts := splitPath path
  if parts.isEmpty then
    match gw.getFile "root" with
    | .error e => (.error (.apiError e), [.getFile "root"])
    | .ok root => (.ok root, [.getFile "root"])
  else
    match gw.getFile "root" with
    | .error e => (.error (.apiError e), [.getFile "root"])
    | .ok root =>
      let (r, t) := rocLoop gw parts "root" root
      (r, .getFile "root" :: t)

/-- The regex metacharacters escaped by `wildcard_to_regex`
(`path_utils.rs` line 190): `. + ( ) [ ] \x7b \x7d \ ^ $ |`. -/
def isRegexMeta (c : Char) : Bool :=
  match c with
  | '.' | '+' | '(' | ')' | '[' | ']' | '{' | '}' | '\\' | '^' | '$' | '|' => true
  | _ => false

/-- The per-character loop body of `wildcard_to_regex` (`path_utils.rs`
lines 186-196): `*` becomes `.*`, `?` becomes `.`, a metacharacter is
prefixed with a backslash, every other character is copied. -/
def wildcardToRegexChars : List Char → List Char
  | [] => []
  | '*' :: rest => '.' :: '*' :: wildcardToRegexChars rest
  | '?' :: rest => '.' :: wildcardToRegexChars rest
  | c :: rest =>
    if isRegexMeta c then '\\' :: c :: wildcardToRegexChars rest
    else c :: wildcardToRegexChars rest

/-- The function `wildcard_to_regex` (`path_utils.rs` lines 183-200): a `^`,
the translated pattern characters, then a `$`. -/
def wildcardToRegex (pattern : String) : String :=
  ⟨'^' :: (wildcardToRegexChars pattern.data ++ ['$'])⟩

/-- One atom of the (tiny) regular-expression sublanguage produced by
`wildcardToRegex`: `.*`, `.`, or a literal character. -/
inductive RTok where
  | star
  | anyChar
  | lit (c : Char)
  deriving DecidableEq, Repr

/-- Modelled from the spec: the parse of the body (between the `^` and `$`
anchors) of a pattern produced by `wildcardToRegex`, as the external `regex`
crate reads it — `\c` is the literal character `c`, `.*` is zero-or-more of
any character, a lone `.` is exactly one of any character, anything else is
itself. -/
def parseRegexBody : List Char → Option (List RTok)
  | [] => some []
  | '\\' :: c :: rest => (parseRegexBody rest).map (RTok.lit c :: ·)
  | ['\\'] => none
  | '.' :: '*' :: rest => (parseRegexBody rest).map (RTok.star :: ·)
  | '.' :: rest => (parseRegexBody rest).map (RTok.anyChar :: ·)
  | c :: rest => (parseRegexBody rest).map (RTok.lit c :: ·)

/-- Matching of a token list against a full character list: `lit` matches
the equal character, `anyChar` any single character, `star` any run
(including the empty run). -/
def rmatch : List RTok → List Char → Bool
  | [], [] => true
  | [], _ :: _ => false
  | RTok.lit c :: ts, d :: ds => c = d && rmatch ts ds
  | RTok.lit _ :: _, [] => false
  | RTok.anyChar :: ts, _ :: ds => rmatch ts ds
  | RTok.anyChar :: _, [] => false
  | RTok.star :: ts, [] => rmatch ts []
  | RTok.star :: ts, d :: ds => rmatch ts (d :: ds) || rmatch (RTok.star :: ts) ds
  termination_by ts ds => (ds.length, ts.length)

/-- Modelled from the spec: `regex::Regex::new(re)?.is_match(s)` (the `regex`
crate is an external collaborator) for the anchored patterns produced by
`wildcardToRegex` — the pattern must start with `^` and end with `$`, and the
body in between is matched against the whole of `s`. -/
def regexIsMatch (re s : String) : Bool :=
  match re.data with
  | '^' :: rest =>
    if rest.getLast? = some '$' then
      match parseRegexBody rest.dropLast with
      | some toks => rmatch toks s.data
      | none => false
    else false
  | _ => false

/-- The name test applied by `resolve_wildcard_path` to each child
(`path_utils.rs` lines 148-150 and 166-172): compile the final segment with
`wildcard_to_regex` and test the name against it. -/
def wildcardMatches (pat name : String) : Bool :=
  regexIsMatch (wildcardToRegex pat) name

/-- The literal-prefix loop of `resolve_wildcard_path` (`path_utils.rs`
lines 122-145): walk the directory parts, keeping only the current id. -/
def wildDirLoop (gw : Gateway) :
    List String → String → Except PathResolutionError String × List GCall
  | [], curId => (.ok curId, [])
  | seg :: rest, curId =>
    match gw.find curId seg with
    | .error e => (.error (.apiError e), [.find curId seg])
    | .ok files =>
      match files.head? with
      | none => (.error (.notFound seg), [.find curId seg])
      | some f =>
        let (r, t) := wildDirLoop gw rest (f.id.getD "")
        (r, .find curId seg :: t)

/-- The function `resolve_wildcard_path` (`path_utils.rs` lines 105-180): if the final
segment contains `*`, walk the literal prefix, list all (up to 1000)
non-trashed children of the resolved directory and keep those whose name
matches the compiled wildcard (no match at all is `NoMatchesFound`);
otherwise delegate to `resolve_path` and wrap the single result in a list.
The `Regex::new` compilation step is modelled as always succeeding, since
`wildcard_to_regex` escapes every metacharacter it does not translate. -/
def resolveWildcardPath (gw : Gateway) (path : String) :
    Except PathResolutionError (List DriveFile) × List GCall :=
  let parts := splitPath path
  if parts.isEmpty then
    (.error .invalidPath, [])
  else
    let lastPart := parts.getLast?.getD ""
    if lastPart.data.contains '*' then
      let dirParts := parts.dropLast
      match wildDirLoop gw dirParts "root" with
      | (.error e, t) => (.error e, t)
      | (.ok curId, t) =>
        match gw.children curId 1000 with
        | .error e => (.error (.apiError e), t ++ [.children curId 1000])
        | .ok files =>
          let matching := files.filter (fun f =>
            match f.name with
            | some n => wildcardMatches lastPart n
            | none => false)
          if matching.isEmpty then
            (.error (.noMatchesFound lastPart), t ++ [.children curId 1000])
          else
            (.ok matching, t ++ [.children curId 1000])
    else
      match resolvePath gw path with
      | (.error e, t) => (.error e, t)
      | (.ok f, t) => (.ok [f], t)

/-- The `Error` enum from `src/files/upload.rs` lines 301-314 (error payloads that are
foreign error types are carried as their rendered message). -/
inductive UploadError where
  | hub (e : String)
  | fileHelper (e : String)
  | resolvePathErr (e : PathResolutionError)
  | fileInfoErr (e : String)
  | openFile (path : String) (e : String)
  | upload (e : String)
  | isDirectory (path : String)
  | driveFolderMissingId
  | createFileTree (e : String)
  | mkdirErr (e : String)
  | other (e : String)
  deriving DecidableEq, Repr

/-- A folder node of the local tree (`src/common/file_tree.rs`, not under
`src/`).  Modelled from the spec: a folder owns its path relative to the tree
root (a list of segments) and a non-owning reference to its parent folder,
used only for lookup; the root folder has no parent. -/
structure FolderNode where
  relPath : List String
  parent : Option (List String)
  deriving DecidableEq, Repr

/-- A file node of the local tree (`src/common/file_tree.rs`, not under
`src/`).  Modelled from the spec: a file owns its relative path and its byte
size as recorded at scan time. -/
structure FileNode where
  relPath : List String
  size : Nat
  deriving DecidableEq, Repr

/-- The local tree (`src/common/file_tree.rs`, not under `src/`).  Modelled
from the spec: `folders` is the sequence yielded by `tree.folders()`
(parent-before-child, root first) and `files` the sequence yielded by
`tree.root.files()`. -/
structure FileTree where
  folders : List FolderNode
  files : List FileNode
  deriving DecidableEq, Repr

/-- The local filesystem and console oracle: directory test, file opening
(`fs::File::open`), sizes and MIME sniffing (`FileInfo::from_file`, not under
`src/`, modelled from the spec), `fs::read_dir` entries as (name, is_dir)
pairs, the tree snapshot built by `FileTree::from_path` (not under `src/`),
and the one line read from stdin by `confirm_overwrite`. -/
structure LocalFs where
  isDir : String → Bool
  openFile : String → Except String Unit
  size : String → Nat
  sniff : String → String
  openRel : List String → Except String Unit
  sniffRel : List String → String
  readDir : String → Except String (List (String × Bool))
  tree : String → Except String FileTree
  stdinLine : String

/-- Render a relative path for error messages (`Path::display`). -/
def joinPath (p : List String) : String := String.intercalate "/" p

/-- Rust `Path::file_name` of an opaque string path (last non-empty
slash-component), with `unwrap_or("")`. -/
def pathFileName (p : String) : String :=
  ((((splitCharsGo '/' [] p.data).map (fun cs => (⟨cs⟩ : String))).filter
      (fun s => s ≠ "")).getLast?).getD ""

/-- The MIME type used for Drive folders (`upload.rs` line 175). -/
def folderMime : String := "application/vnd.google-apps.folder"

/-- The `FolderIdMap` (`folder_ids : HashMap<PathBuf, String>`,
`upload.rs` line 132), as an association list; insertion prepends, lookup
takes the first hit, matching `HashMap` insert/get behaviour. -/
def FolderIdMap := List (List String × String)

def idInsert (m : FolderIdMap) (k : List String) (v : String) : FolderIdMap :=
  (k, v) :: m

def idLookup (m : FolderIdMap) (k : List String) : Option String :=
  (List.find? (fun e => e.1 = k) m).map (·.2)

/-- The function `FileInfo::from_file` (`src/common/file_info.rs`, not under `src/`).
Modelled from the spec: name from the file path, MIME type by extension
sniffing overridable by explicit configuration, parents and size as
supplied. -/
def fileInfoFromFile (fs : LocalFs) (relPath : List String) (size : Nat)
    (mime : Option String) (parents : Option (List String)) : FileInfo :=
  { name := relPath.getLast?.getD ""
    mimeType := mime.getD (fs.sniffRel relPath)
    parents := parents
    size := size }

/-- The function `upload_file` (`upload.rs` lines 263-299): build the destination file
from `file_info`, and issue `upload_resumable` when `file_info.size >
chunk_size_bytes`, plain `upload` otherwise. -/
def uploadFile (gw : Gateway) (fileId : Option String) (info : FileInfo)
    (dcfg : UploadDelegateConfig) : Except String DriveFile × List GCall :=
  let m := if info.size > dcfg.chunkSize.inBytes
           then UploadMethod.resumable else UploadMethod.simple
  (gw.doUpload m fileId info, [.upload m fileId info])

/-- Phase 1 of `upload_directory` (`upload.rs` lines 134-192): for each
folder in `tree.folders()` order, determine the remote parent (the external
`config.parents` for the root node, a `FolderIdMap` lookup for the rest; a
miss is a hard `Other` error), create the folder remotely via `upload_file`
with the folder MIME type and size 0, and record the returned id in the
map (`DriveFolderMissingId` if absent). -/
def phase1 (gw : Gateway) (cfg : Config) (dcfg : UploadDelegateConfig) :
    List FolderNode → FolderIdMap → Except UploadError FolderIdMap × List GCall
  | [], m => (.ok m, [])
  | fo :: rest, m =>
    let folderName := fo.relPath.getLast?.getD ""
    let pid? : Except UploadError String :=
      match fo.parent with
      | none =>
        match cfg.parents with
        | some (p :: _) => .ok p
        | _ => .error (.other ("No parent specified for root directory "
                               ++ joinPath fo.relPath))
      | some pp =>
        match idLookup m pp with
        | some id => .ok id
        | none => .error (.other ("Failed to find parent for " ++ joinPath fo.relPath))
    match pid? with
    | .error e => (.error e, [])
    | .ok pid =>
      let info : FileInfo :=
        { name := folderName, mimeType := folderMime
          parents := some [pid], size := 0 }
      let (r, t) := uploadFile gw none info dcfg
      match r with
      | .error e => (.error (.upload e), t)
      | .ok f =>
        match f.id with
        | some id =>
          let (r2, t2) := phase1 gw cfg dcfg rest (idInsert m fo.relPath id)
          (r2, t ++ t2)
        | none => (.error .driveFolderMissingId, t)

/-- Phase 2 of `upload_directory` (`upload.rs` lines 195-247): for each file
in `tree.root.files()`, look up the parent folder id in the `FolderIdMap`
(falling back to the external `config.parents` for top-level files; a miss is
a hard `Other` error), open the local file, build its `FileInfo` and upload
it. -/
def phase2 (gw : Gateway) (fs : LocalFs) (cfg : Config)
    (dcfg : UploadDelegateConfig) (m : FolderIdMap) :
    List FileNode → Except UploadError Unit × List GCall
  | [] => (.ok (), [])
  | f :: rest =>
    let parentPath := f.relPath.dropLast
    let pid? : Option String :=
      match idLookup m parentPath with
      | some id => some id
      | none =>
        if parentPath = [] then cfg.parents.bind (·.head?) else none
    match pid? with
    | none => (.error (.other ("Failed to find parent for " ++ joinPath f.relPath)), [])
    | some pid =>
      match fs.openRel f.relPath with
      | .error e => (.error (.openFile (joinPath f.relPath) e), [])
      | .ok _ =>
        let info := fileInfoFromFile fs f.relPath f.size cfg.mimeType (some [pid])
        let (r, t) := uploadFile gw none info dcfg
        match r with
        | .error e => (.error (.upload e), t)
        | .ok _ =>
          let (r2, t2) := phase2 gw fs cfg dcfg m rest
          (r2, t ++ t2)

/-- The function `upload_directory` (`upload.rs` lines 110-261): build the tree snapshot
(`FileTree::from_path`, modelled as `fs.tree`), run Phase 1 over the folders
starting from an empty `FolderIdMap`, and only if all of Phase 1 succeeded,
run Phase 2 over the files with the completed map. -/
def uploadDirectory (gw : Gateway) (fs : LocalFs) (cfg : Config)
    (dcfg : UploadDelegateConfig) : Except UploadError Unit × List GCall :=
  match fs.tree cfg.filePath with
  | .error e => (.error (.createFileTree e), [])
  | .ok tree =>
    let (r1, t1) := phase1 gw cfg dcfg tree.folders []
    match r1 with
    | .error e => (.error e, t1)
    | .ok m =>
      let (r2, t2) := phase2 gw fs cfg dcfg m tree.files
      (r2, t1 ++ t2)

/-- The `UploadDelegateConfig` built by `upload` from its `Config`
(`upload.rs` lines 49-58). -/
def mkDelegateConfig (cfg : Config) : UploadDelegateConfig :=
  { chunkSize := cfg.chunkSize
    backoffConfig := { maxRetries := 100000, minSleepSecs := 1, maxSleepSecs := 60 }
    printChunkErrors := cfg.printChunkErrors
    printChunkInfo := cfg.printChunkInfo }

/-- The function `upload_regular` (`upload.rs` lines 71-108): open the local file, build
its `FileInfo` (name from the path, MIME from configuration or sniffing,
parents from the config, size from the filesystem) and upload it with
`upload_file`. -/
def uploadRegular (gw : Gateway) (fs : LocalFs) (cfg : Config)
    (dcfg : UploadDelegateConfig) : Except UploadError Unit × List GCall :=
  match fs.openFile cfg.filePath with
  | .error e => (.error (.openFile cfg.filePath e), [])
  | .ok _ =>
    let info : FileInfo :=
      { name := pathFileName cfg.filePath
        mimeType := (cfg.mimeType.getD (fs.sniff cfg.filePath))
        parents := cfg.parents
        size := fs.size cfg.filePath }
    let (r, t) := uploadFile gw none info dcfg
    match r with
    | .error e => (.error (.upload e), t)
    | .ok _ => (.ok (), t)

/-- The function `upload` (`upload.rs` lines 46-69): build the delegate configuration
from the `Config` (the hard-coded backoff policy of lines 51-55), fail with
the `err_if_directory` message for a directory without `upload_directories`,
and dispatch to `upload_directory` or `upload_regular`. -/
def upload (gw : Gateway) (fs : LocalFs) (cfg : Config) :
    Except UploadError Unit × List GCall :=
  let dcfg := mkDelegateConfig cfg
  if fs.isDir cfg.filePath && !cfg.uploadDirectories then
    (.error (.other ("'" ++ cfg.filePath
      ++ "' is a directory. Use --recursive to upload directories.")), [])
  else if fs.isDir cfg.filePath then
    uploadDirectory gw fs cfg dcfg
  else
    uploadRegular gw fs cfg dcfg

/-- Rust `str::trim`: strip leading and trailing whitespace. -/
def rustTrim (s : String) : String :=
  ⟨((s.data.dropWhile Char.isWhitespace).reverse.dropWhile Char.isWhitespace).reverse⟩

/-- Rust `str::to_lowercase`, restricted to the single-character-lowercase
case (ASCII in particular): lowercase every character. -/
def rustToLower (s : String) : String := ⟨s.data.map Char.toLower⟩

/-- The function `confirm_overwrite` (`upload_with_check.rs` lines 125-132): trim the
line read from stdin, lowercase it, and accept exactly `y` and `yes`. -/
def confirmOverwrite (input : String) : Bool :=
  let i := rustToLower (rustTrim input)
  i == "y" || i == "yes"

/-- The destination parent id used by `upload_with_overwrite_check`
(`upload_with_check.rs` lines 17-20 and 90-93): the first configured parent,
or `root` when none is configured. -/
def overwriteParentId (cfg : Config) : String :=
  match cfg.parents with
  | some (p :: _) => p
  | _ => "root"

/-- The function `upload_with_overwrite_check` (`upload_with_check.rs` lines 11-122).
Recursive-directory branch: list up to 100 children of the destination
parent, read the local directory (the collision list is only printed),
prompt, return `Ok(())` on refusal, and on confirmation call
`upload_directory` with a default-constructed delegate configuration
(line 80).  Plain-directory branch: `IsDirectory` error.  Single-file
branch: query the destination for the file name; if a match exists, prompt
and return `Ok(())` on refusal; otherwise (or on confirmation) call
`upload`. -/
def uploadWithOverwriteCheck (gw : Gateway) (fs : LocalFs) (cfg : Config) :
    Except UploadError Unit × List GCall :=
  if fs.isDir cfg.filePath && cfg.uploadDirectories then
    let parentId := overwriteParentId cfg
    match gw.children parentId 100 with
    | .error e => (.error (.other e), [.children parentId 100])
    | .ok _remoteFiles =>
      match fs.readDir cfg.filePath with
      | .error e =>
        (.error (.other ("Failed to read directory: " ++ e)),
         [.children parentId 100])
      | .ok _entries =>
        if confirmOverwrite fs.stdinLine then
          let (r, t) := uploadDirectory gw fs cfg default
          (r, .children parentId 100 :: t)
        else
          (.ok (), [.children parentId 100])
  else if fs.isDir cfg.filePath then
    (.error (.isDirectory cfg.filePath), [])
  else
    let fileName := pathFileName cfg.filePath
    let parentId := overwriteParentId cfg
    match gw.find parentId fileName with
    | .error e => (.error (.other e), [.find parentId fileName])
    | .ok files =>
      if files.isEmpty then
        let (r, t) := upload gw fs cfg
        (r, .find parentId fileName :: t)
      else if confirmOverwrite fs.stdinLine then
        let (r, t) := upload gw fs cfg
        (r, .find parentId fileName :: t)
      else
        (.ok (), [.find parentId fileName])

/-- A Gateway write call: a folder creation or an upload request (everything
else — `getFile`, `find`, `children` — is read-only). -/
def GCall.isWrite : GCall → Bool
  | .createFolder _ _ => true
  | .upload _ _ _ => true
  | _ => false

/-- Derived specification for C6: the first segment, in left-to-right order,
of a resolve walk from `curId` that has no (non-trashed) match, paired with
the list of segments successfully resolved before it; `none` when the walk
either completes or hits a Gateway error first. -/
def firstMissing (gw : Gateway) :
    List String → String → Option (List String × String)
  | [], _ => none
  | seg :: rest, curId =>
    match gw.find curId seg with
    | .error _ => none
    | .ok files =>
      match files.head? with
      | none => some ([], seg)
      | some f =>
        (firstMissing gw rest (f.id.getD "")).map (fun pr => (seg :: pr.1, pr.2))

/-- The root object used by the concrete test oracles. -/
def rootFile : DriveFile := ⟨some "root", some "My Drive"⟩

/-- A child named `abxc` used by the concrete test oracles. -/
def abxcFile : DriveFile := ⟨some "f1", some "abxc"⟩

/-- A concrete Gateway: object fetches succeed, no name query matches, the
only listed child of any folder is `abxcFile`, folder creations and uploads
succeed. -/
def gwC2 : Gateway where
  getFile := fun i => .ok ⟨some i, some i⟩
  find := fun _ _ => .ok []
  children := fun _ _ => .ok [abxcFile]
  createFolder := fun n p => .ok ⟨some (p ++ "/" ++ n), some n⟩
  doUpload := fun _ _ info => .ok ⟨some info.name, some info.name⟩

/-- A star token matches every character list. -/
theorem rmatch_star_any (ds : List Char) : rmatch [RTok.star] ds = true := by
  induction ds with
  | nil => simp [rmatch]
  | cons d ds ih => simp [rmatch, ih]

/-- C1: for every input path consisting only of slashes or empty, the spec
claims `resolve` returns the root object without any Gateway call, and the
repository's own test (`tests/path_resolution.rs`, `test_resolve_path`)
asserts `resolve_path(&hub, "/")` succeeds with the root id; the code instead
returns `Err(InvalidPath)` for such paths — while indeed issuing no Gateway
call (the trace is empty). -/
theorem c1_slash_only_path_gives_invalid_path (gw : Gateway) :
    resolvePath gw "/" = (.error .invalidPath, [])
    ∧ resolvePath gw "" = (.error .invalidPath, [])
    ∧ resolvePath gw "///" = (.error .invalidPath, []) :=
  ⟨rfl, rfl, rfl⟩

/-- C4: the wildcard-to-pattern translation is anchored at both ends, maps
`*` to zero-or-more of any character and `?` to exactly one of any character,
and matches every other character literally, escaping pattern
metacharacters: `*.jpg` matches `a.jpg` and `.jpg` but not `a.jpgx`; `?.txt`
matches `a.txt` but not `ab.txt` or `.txt`; segments containing `.`, `+` or
`(` match those characters only literally. -/
theorem c4_wildcard_translation :
    (∀ s : String, wildcardMatches "*" s = true)
    ∧ (∀ c : Char, wildcardMatches "?" ⟨[c]⟩ = true)
    ∧ wildcardMatches "?" "" = false
    ∧ wildcardMatches "?" "ab" = false
    ∧ wildcardToRegex "*.jpg" = "^.*\\.jpg$"
    ∧ wildcardToRegex "?.txt" = "^.\\.txt$"
    ∧ wildcardMatches "*.jpg" "a.jpg" = true
    ∧ wildcardMatches "*.jpg" ".jpg" = true
    ∧ wildcardMatches "*.jpg" "a.jpgx" = false
    ∧ wildcardMatches "?.txt" "a.txt" = true
    ∧ wildcardMatches "?.txt" "ab.txt" = false
    ∧ wildcardMatches "?.txt" ".txt" = false
    ∧ wildcardMatches "a.b" "a.b" = true
    ∧ wildcardMatches "a.b" "axb" = false
    ∧ wildcardMatches "a+b" "a+b" = true
    ∧ wildcardMatches "a+b" "ab" = false
    ∧ wildcardMatches "a+b" "aab" = false
    ∧ wildcardMatches "(x)" "(x)" = true
    ∧ wildcardMatches "(x)" "x" = false
    ∧ wildcardMatches "jpg" "xjpg" = false
    ∧ wildcardMatches "jpg" "jpgx" = false := by
  refine ⟨fun s => ?_, fun c => ?_, ?_, ?_, ?_, ?_, ?_, ?_, ?_, ?_, ?_, ?_,
    ?_, ?_, ?_, ?_, ?_, ?_, ?_, ?_, ?_⟩
  · show rmatch [RTok.star] s.data = true
    exact rmatch_star_any s.data
  all_goals
    simp [wildcardMatches, regexIsMatch, wildcardToRegex, wildcardToRegexChars,
      isRegexMeta, parseRegexBody, rmatch]

/-- C2 counterexample: with a root whose only child is named `abxc` and no
literal child named `ab?c`, the claim says the final segment `ab?c`
(containing the wildcard character `?`) is wildcard-matched against the
children of the resolved prefix, which would return `abxc` (which `ab?c`
matches); the code instead checks the final segment only for `*`
(`path_utils.rs` line 113), delegates `ab?c` to plain `resolve`, and fails
with `NotFound("ab?c")`. -/
theorem c2_counterexample :
    wildcardMatches "ab?c" "abxc" = true
    ∧ gwC2.children "root" 1000 = .ok [abxcFile]
    ∧ (resolveWildcardPath gwC2 "ab?c").1 = .error (.notFound "ab?c")
    ∧ (resolveWildcardPath gwC2 "ab?c").1 ≠ .ok [abxcFile] := by
  refine ⟨?_, rfl, rfl, ?_⟩
  · simp [wildcardMatches, regexIsMatch, wildcardToRegex, wildcardToRegexChars,
      isRegexMeta, parseRegexBody, rmatch]
  · intro h
    rw [show (resolveWildcardPath gwC2 "ab?c").1
        = Except.error (PathResolutionError.notFound "ab?c") from rfl] at h
    exact Except.noConfusion h

/-- C2 (amended): `resolveWildcard` performs wildcard matching of the final
segment against the children of the resolved literal prefix exactly when the
final segment contains `*`; when the final segment contains no `*` — even if
it contains `?` — it delegates to plain `resolve`, so such a segment is
matched literally.  (Within a match that is triggered by a `*`, a `?` is
still translated to exactly-one-character.) -/
theorem c2_wildcard_trigger_is_star_only (gw : Gateway) (path : String)
    (hne : splitPath path ≠ []) :
    (((splitPath path).getLast?.getD "").data.contains '*' = false →
      resolveWildcardPath gw path =
        (match resolvePath gw path with
         | (.error e, t) => (.error e, t)
         | (.ok f, t) => (.ok [f], t)))
    ∧ (((splitPath path).getLast?.getD "").data.contains '*' = true →
      ∀ curId t files,
        wildDirLoop gw (splitPath path).dropLast "root" = (.ok curId, t) →
        gw.children curId 1000 = .ok files →
        resolveWildcardPath gw path =
          (let matching := files.filter (fun f =>
              match f.name with
              | some n => wildcardMatches ((splitPath path).getLast?.getD "") n
              | none => false)
           if matching.isEmpty then
             (.error (.noMatchesFound ((splitPath path).getLast?.getD "")),
              t ++ [.children curId 1000])
           else
             (.ok matching, t ++ [.children curId 1000]))) := by
  rcases h : splitPath path with _ | ⟨s, ss⟩
  · exact absurd h hne
  constructor
  · intro hstar
    have hs : ¬ ('*' ∈ ((s :: ss).getLast?.getD "").data) := by simpa using hstar
    simp [resolveWildcardPath, h, hs, wildcardMatches]
  · intro hstar curId t files hloop hch
    have hs : '*' ∈ ((s :: ss).getLast?.getD "").data := by simpa using hstar
    simp [resolveWildcardPath, h, hs, wildcardMatches, hloop, hch]

/-- Witness for C2 (amended): the path `ab?c` (a `?` but no `*`) is
delegated to `resolve`; the path `a*` (a `*`) is wildcard-matched against
the children of the root, returning the matching child `abxc`. -/
theorem c2_wildcard_trigger_witness :
    resolveWildcardPath gwC2 "ab?c" =
      (match resolvePath gwC2 "ab?c" with
       | (.error e, t) => (.error e, t)
       | (.ok f, t) => (.ok [f], t))
    ∧ resolveWildcardPath gwC2 "a*" = (.ok [abxcFile], [.children "root" 1000]) := by
  constructor
  · exact (c2_wildcard_trigger_is_star_only gwC2 "ab?c" (by decide)).1 (by decide)
  · have h := (c2_wildcard_trigger_is_star_only gwC2 "a*" (by decide)).2
      (by decide) "root" [] [abxcFile] rfl rfl
    refine h.trans ?_
    simp [wildcardMatches, regexIsMatch, wildcardToRegex, wildcardToRegexChars,
      isRegexMeta, parseRegexBody, rmatch, abxcFile]

/-- A concrete Gateway whose folder creations succeed but return an object
with no id. -/
def gwNoId : Gateway where
  getFile := fun i => .ok ⟨some i, some i⟩
  find := fun _ _ => .ok []
  children := fun _ _ => .ok []
  createFolder := fun n _ => .ok ⟨none, some n⟩
  doUpload := fun _ _ info => .ok ⟨some info.name, some info.name⟩

/-- C5: `resolveOrCreate` walks the segments in order; on a segment with no
non-trashed match under the current object it creates a folder named that
segment as a child of the current object, and continues the walk from the
newly created folder; when the Gateway returns the created folder without an
identifier, it fails with the hard error `MissingId`. -/
theorem c5_resolve_or_create_creates_missing (gw : Gateway) :
    (∀ path root, splitPath path ≠ [] → gw.getFile "root" = .ok root →
      resolveOrCreatePath gw path =
        ((rocLoop gw (splitPath path) "root" root).1,
         .getFile "root" :: (rocLoop gw (splitPath path) "root" root).2))
    ∧ (∀ seg rest curId cur, gw.find curId seg = .ok [] →
      ((∀ e, gw.createFolder seg curId = .error e →
          rocLoop gw (seg :: rest) curId cur =
            (.error (.createDirectoryError e),
             [.find curId seg, .createFolder seg curId]))
       ∧ (∀ nf, gw.createFolder seg curId = .ok nf →
          ((nf.id = none →
              rocLoop gw (seg :: rest) curId cur =
                (.error .missingId, [.find curId seg, .createFolder seg curId]))
           ∧ (∀ nid, nf.id = some nid →
              rocLoop gw (seg :: rest) curId cur =
                ((rocLoop gw rest nid nf).1,
                 .find curId seg :: .createFolder seg curId ::
                   (rocLoop gw rest nid nf).2)))))) := by
  constructor
  · intro path root hne hroot
    rcases h : splitPath path with _ | ⟨s, ss⟩
    · exact absurd h hne
    rcases hrt : rocLoop gw (s :: ss) "root" root with ⟨r, t⟩
    simp [resolveOrCreatePath, h, hroot, hrt]
  · intro seg rest curId cur hfind
    refine ⟨fun e hc => ?_, fun nf hc => ⟨fun hid => ?_, fun nid hid => ?_⟩⟩
    · simp [rocLoop, hfind, hc]
    · simp [rocLoop, hfind, hc, hid]
    · rcases hrt : rocLoop gw rest nid nf with ⟨r, t⟩
      simp [rocLoop, hfind, hc, hid, hrt]

/-- Witness for C5: under `gwNoId`, creating segment `a` yields a folder
without an id, so the walk fails with `MissingId`; under `gwC2`, the walk
continues from the created folder `root/a`, and `resolveOrCreatePath` is the
root fetch followed by the loop. -/
theorem c5_resolve_or_create_witness :
    rocLoop gwNoId ["a"] "root" rootFile =
      (.error .missingId, [.find "root" "a", .createFolder "a" "root"])
    ∧ rocLoop gwC2 ["a", "b"] "root" rootFile =
        ((rocLoop gwC2 ["b"] "root/a" ⟨some "root/a", some "a"⟩).1,
         .find "root" "a" :: .createFolder "a" "root" ::
           (rocLoop gwC2 ["b"] "root/a" ⟨some "root/a", some "a"⟩).2)
    ∧ resolveOrCreatePath gwC2 "/a" =
        ((rocLoop gwC2 ["a"] "root" ⟨some "root", some "root"⟩).1,
         .getFile "root" :: (rocLoop gwC2 ["a"] "root" ⟨some "root", some "root"⟩).2) :=
  ⟨(((c5_resolve_or_create_creates_missing gwNoId).2 "a" [] "root" rootFile rfl).2
      ⟨none, some "a"⟩ rfl).1 rfl,
   (((c5_resolve_or_create_creates_missing gwC2).2 "a" ["b"] "root" rootFile rfl).2
      ⟨some "root/a", some "a"⟩ rfl).2 "root/a" rfl,
   (c5_resolve_or_create_creates_missing gwC2).1 "/a" ⟨some "root", some "root"⟩
      (by decide) rfl⟩

/-- Helper for C6: if `firstMissing` locates a first unlocatable segment
`seg` after successfully resolving the segment list `pre`, then the resolve
loop fails with `NotFound seg` and issues exactly one `find` query per
segment up to and including `seg` — nothing after it. -/
theorem firstMissing_resolveLoop (gw : Gateway) :
    ∀ parts curId cur pre seg,
      firstMissing gw parts curId = some (pre, seg) →
      (resolveLoop gw parts curId cur).1 = .error (.notFound seg)
      ∧ (resolveLoop gw parts curId cur).2.length = pre.length + 1 := by
  intro parts
  induction parts with
  | nil =>
    intro curId cur pre seg h
    simp [firstMissing] at h
  | cons s ss ih =>
    intro curId cur pre seg h
    rcases hf : gw.find curId s with e | files
    · simp [firstMissing, hf] at h
    · cases hh : files.head? with
      | none =>
        simp [firstMissing, hf, hh] at h
        obtain ⟨h1, h2⟩ := h
        subst h1
        subst h2
        simp [resolveLoop, hf, hh]
      | some f =>
        have hfm : firstMissing gw (s :: ss) curId
            = (firstMissing gw ss (f.id.getD "")).map (fun pr => (s :: pr.1, pr.2)) := by
          simp [firstMissing, hf, hh]
        rw [hfm] at h
        rcases hm2 : firstMissing gw ss (f.id.getD "") with _ | ⟨pre', seg'⟩
        · rw [hm2] at h
          simp at h
        · rw [hm2] at h
          simp [Option.map] at h
          obtain ⟨hp, hs⟩ := h
          subst hp
          subst hs
          have hl := ih (f.id.getD "") f pre' seg' hm2
          rcases hrt : resolveLoop gw ss (f.id.getD "") f with ⟨r, t⟩
          rw [hrt] at hl
          simp at hl
          simp [resolveLoop, hf, hh, hrt, hl.1, hl.2]

/-- C6: for a path with at least one segment, when some segment has no
non-trashed child match under the object resolved so far, `resolve` fails
with `NotFound` carrying exactly the first such segment (not the whole
path), and issues no per-segment Gateway query beyond that segment: the
trace is the root fetch plus one `find` per segment up to and including the
failing one. -/
theorem c6_resolve_notfound_names_first_segment (gw : Gateway) (path : String)
    (root : DriveFile) (pre : List String) (seg : String)
    (hne : splitPath path ≠ [])
    (hroot : gw.getFile "root" = .ok root)
    (hmiss : firstMissing gw (splitPath path) "root" = some (pre, seg)) :
    (resolvePath gw path).1 = .error (.notFound seg)
    ∧ (resolvePath gw path).2.length = pre.length + 2 := by
  rcases h : splitPath path with _ | ⟨s, ss⟩
  · exact absurd h hne
  have hl := firstMissing_resolveLoop gw (s :: ss) "root" root pre seg (h ▸ hmiss)
  rcases hrt : resolveLoop gw (s :: ss) "root" root with ⟨r, t⟩
  rw [hrt] at hl
  simp at hl
  simp [resolvePath, h, hroot, hrt, hl.1]
  omega

/-- Witness for C6: under `gwC2` no name query matches, so `/a/b` fails at
the first segment `a` after exactly two Gateway calls (the root fetch and
one `find`). -/
theorem c6_resolve_notfound_witness :
    (resolvePath gwC2 "/a/b").1 = .error (.notFound "a")
    ∧ (resolvePath gwC2 "/a/b").2.length = 2 :=
  ⟨(c6_resolve_notfound_names_first_segment gwC2 "/a/b" ⟨some "root", some "root"⟩
      [] "a" (by decide) rfl rfl).1,
   (c6_resolve_notfound_names_first_segment gwC2 "/a/b" ⟨some "root", some "root"⟩
      [] "a" (by decide) rfl rfl).2⟩

/-- C3: in `upload_directory`, every Gateway call of Phase 1 is a folder
creation (an upload of a folder-MIME object whose parent id was already
known when the call was issued); every file upload of Phase 2 names a parent
id that is recorded in the `FolderIdMap` or supplied externally in
`config.parents`; and if Phase 1 fails, the whole run returns Phase 1's
error with Phase 1's trace, so zero file uploads are attempted. -/
theorem c3_no_upload_before_parent_known
    (gw : Gateway) (fs : LocalFs) (cfg : Config) (dcfg : UploadDelegateConfig) :
    (∀ tree e, fs.tree cfg.filePath = .ok tree →
      (phase1 gw cfg dcfg tree.folders []).1 = .error e →
      uploadDirectory gw fs cfg dcfg = (.error e, (phase1 gw cfg dcfg tree.folders []).2))
    ∧ (∀ fos m, ∀ c ∈ (phase1 gw cfg dcfg fos m).2,
        ∃ mth fid info pid, c = .upload mth fid info ∧ info.mimeType = folderMime
          ∧ info.parents = some [pid])
    ∧ (∀ m files, ∀ c ∈ (phase2 gw fs cfg dcfg m files).2,
        ∃ mth fid info pid, c = .upload mth fid info ∧ info.parents = some [pid]
          ∧ ((∃ k, idLookup m k = some pid) ∨ cfg.parents.bind List.head? = some pid)) := by
  refine ⟨?_, ?_, ?_⟩
  · intro tree e htree herr
    rcases hp : phase1 gw cfg dcfg tree.folders [] with ⟨r1, t1⟩
    rw [hp] at herr
    simp at herr
    simp [uploadDirectory, htree, hp, herr]
  · intro fos
    induction fos with
    | nil => intro m c hc; simp [phase1] at hc
    | cons fo rest ih =>
      intro m c hc
      simp only [phase1, uploadFile] at hc
      rcases hpid : (match fo.parent with
        | none =>
          match cfg.parents with
          | some (p :: _) => Except.ok p
          | _ => Except.error (UploadError.other ("No parent specified for root directory "
                   ++ joinPath fo.relPath))
        | some pp =>
          match idLookup m pp with
          | some id => Except.ok id
          | none => Except.error (UploadError.other ("Failed to find parent for "
                     ++ joinPath fo.relPath)) : Except UploadError String) with e | pid
      · rw [hpid] at hc
        simp at hc
      · rw [hpid] at hc
        dsimp only at hc
        split at hc
        · simp at hc
          exact ⟨_, _, _, pid, hc, rfl, rfl⟩
        · split at hc
          · rename_i f hdo id hid
            simp at hc
            rcases hc with hc | hc
            · exact ⟨_, _, _, pid, hc, rfl, rfl⟩
            · exact ih (idInsert m fo.relPath id) c hc
          · simp at hc
            exact ⟨_, _, _, pid, hc, rfl, rfl⟩
  · intro m files
    induction files with
    | nil => intro c hc; simp [phase2] at hc
    | cons f rest ih =>
      intro c hc
      simp only [phase2, uploadFile] at hc
      rcases hpid : (match idLookup m f.relPath.dropLast with
        | some id => some id
        | none =>
          if f.relPath.dropLast = [] then cfg.parents.bind (·.head?) else none) with _ | pid
      · rw [hpid] at hc
        simp at hc
      · rw [hpid] at hc
        dsimp only at hc
        have hsrc : (∃ k, idLookup m k = some pid)
            ∨ cfg.parents.bind List.head? = some pid := by
          rcases hlk : idLookup m f.relPath.dropLast with _ | id
          · rw [hlk] at hpid
            by_cases hdl : f.relPath.dropLast = []
            · right
              rw [if_pos hdl] at hpid
              exact hpid
            · rw [if_neg hdl] at hpid
              exact absurd hpid (by simp)
          · left
            rw [hlk] at hpid
            simp at hpid
            exact ⟨f.relPath.dropLast, hpid ▸ hlk⟩
        rcases hop : fs.openRel f.relPath with e | u
        · rw [hop] at hc
          simp at hc
        · rw [hop] at hc
          dsimp only at hc
          split at hc
          · simp at hc
            exact ⟨_, _, _, pid, hc, rfl, hsrc⟩
          · simp at hc
            rcases hc with hc | hc
            · exact ⟨_, _, _, pid, hc, rfl, hsrc⟩
            · exact ih c hc

/-- The local tree used by the C3 witness: one root folder `d` holding one
file `d/a.txt`. -/
def treeW : FileTree := ⟨[⟨["d"], none⟩], [⟨["d", "a.txt"], 5⟩]⟩

/-- A concrete local filesystem whose tree snapshot is `t`, every open
succeeds, and stdin holds `stdin`. -/
def fsW (t : FileTree) (stdin : String) (dir : Bool) : LocalFs where
  isDir := fun _ => dir
  openFile := fun _ => .ok ()
  size := fun _ => 7
  sniff := fun _ => "text/plain"
  openRel := fun _ => .ok ()
  sniffRel := fun _ => "text/plain"
  readDir := fun _ => .ok []
  tree := fun _ => .ok t
  stdinLine := stdin

/-- A concrete Gateway whose uploads all fail. -/
def gwFail : Gateway where
  getFile := fun i => .ok ⟨some i, some i⟩
  find := fun _ _ => .ok []
  children := fun _ _ => .ok []
  createFolder := fun n p => .ok ⟨some (p ++ "/" ++ n), some n⟩
  doUpload := fun _ _ _ => .error "boom"

/-- A concrete upload `Config` targeting parent `P` with recursion enabled. -/
def cfgW : Config := ⟨"localdir", none, some ["P"], ⟨8⟩, false, false, true, false⟩

/-- Witness for C3: when the very first folder-creation call of Phase 1
fails, `upload_directory` returns that error and its trace holds exactly the
one folder-creation upload — the file `d/a.txt` is never uploaded. -/
theorem c3_no_upload_witness :
    uploadDirectory gwFail (fsW treeW "y" true) cfgW default
      = (.error (.upload "boom"),
         [.upload .simple none ⟨"d", folderMime, some ["P"], 0⟩]) := by
  have h := (c3_no_upload_before_parent_known gwFail (fsW treeW "y" true) cfgW
      default).1 treeW (.upload "boom") rfl (by simp [phase1, uploadFile, cfgW, treeW, gwFail])
  refine h.trans ?_
  simp [phase1, uploadFile, cfgW, treeW, gwFail, folderMime]

/-- C7: the choice between the single-shot and the chunked/resumable upload
request in `upload_file` is determined solely by size: at or below the
configured chunk size the single-shot `upload` is used, strictly above it
the resumable upload is used. -/
theorem c7_upload_method_is_size_driven (gw : Gateway) (fileId : Option String)
    (info : FileInfo) (dcfg : UploadDelegateConfig) :
    (info.size ≤ dcfg.chunkSize.inBytes →
      uploadFile gw fileId info dcfg =
        (gw.doUpload .simple fileId info, [.upload .simple fileId info]))
    ∧ (dcfg.chunkSize.inBytes < info.size →
      uploadFile gw fileId info dcfg =
        (gw.doUpload .resumable fileId info, [.upload .resumable fileId info])) := by
  constructor
  · intro h
    simp only [uploadFile]
    rw [if_neg (Nat.not_lt.mpr h)]
  · intro h
    simp only [uploadFile]
    rw [if_pos h]

/-- Witness for C7: a 100-byte file is below a 2 MiB chunk and goes
single-shot; a file one byte above 2 MiB goes resumable. -/
theorem c7_upload_method_witness :
    uploadFile gwC2 none ⟨"a.txt", "text/plain", some ["P"], 100⟩
        ⟨⟨2⟩, default, false, false⟩ =
      (gwC2.doUpload .simple none ⟨"a.txt", "text/plain", some ["P"], 100⟩,
       [.upload .simple none ⟨"a.txt", "text/plain", some ["P"], 100⟩])
    ∧ uploadFile gwC2 none ⟨"b.bin", "application/x-bin", some ["P"], 2097153⟩
        ⟨⟨2⟩, default, false, false⟩ =
      (gwC2.doUpload .resumable none ⟨"b.bin", "application/x-bin", some ["P"], 2097153⟩,
       [.upload .resumable none ⟨"b.bin", "application/x-bin", some ["P"], 2097153⟩]) :=
  ⟨(c7_upload_method_is_size_driven gwC2 none _ _).1 (by decide),
   (c7_upload_method_is_size_driven gwC2 none _ _).2 (by decide)⟩

/-- A concrete Gateway under which every name query finds `abxcFile`. -/
def gwFound : Gateway where
  getFile := fun i => .ok ⟨some i, some i⟩
  find := fun _ _ => .ok [abxcFile]
  children := fun _ _ => .ok [abxcFile]
  createFolder := fun n p => .ok ⟨some (p ++ "/" ++ n), some n⟩
  doUpload := fun _ _ info => .ok ⟨some info.name, some info.name⟩

/-- C8: `confirm_overwrite` accepts exactly the trimmed, lowercased inputs
`y` and `yes`; every other response (empty input included) is refusal, and
on refusal `upload_with_overwrite_check` returns with a trace containing
zero Gateway write calls — only the one read query it issued before
prompting. -/
theorem c8_overwrite_guard_semantics (gw : Gateway) (fs : LocalFs) (cfg : Config) :
    (∀ s : String,
      confirmOverwrite s = true
        ↔ (rustToLower (rustTrim s) = "y" ∨ rustToLower (rustTrim s) = "yes"))
    ∧ (fs.isDir cfg.filePath = true → cfg.uploadDirectories = true →
      confirmOverwrite fs.stdinLine = false →
      ∀ rfiles entries, gw.children (overwriteParentId cfg) 100 = .ok rfiles →
        fs.readDir cfg.filePath = .ok entries →
        uploadWithOverwriteCheck gw fs cfg
          = (.ok (), [.children (overwriteParentId cfg) 100])
        ∧ (uploadWithOverwriteCheck gw fs cfg).2.filter GCall.isWrite = [])
    ∧ (fs.isDir cfg.filePath = false →
      confirmOverwrite fs.stdinLine = false →
      ∀ files, gw.find (overwriteParentId cfg) (pathFileName cfg.filePath) = .ok files →
        files ≠ [] →
        uploadWithOverwriteCheck gw fs cfg
          = (.ok (), [.find (overwriteParentId cfg) (pathFileName cfg.filePath)])
        ∧ (uploadWithOverwriteCheck gw fs cfg).2.filter GCall.isWrite = []) := by
  refine ⟨?_, ?_, ?_⟩
  · intro s
    simp [confirmOverwrite, Bool.or_eq_true, beq_iff_eq]
  · intro hdir hrec hconf rfiles entries hch hrd
    have h : uploadWithOverwriteCheck gw fs cfg
        = (.ok (), [.children (overwriteParentId cfg) 100]) := by
      simp [uploadWithOverwriteCheck, hdir, hrec, hch, hrd, hconf]
    exact ⟨h, by rw [h]; rfl⟩
  · intro hdir hconf files hfind hne
    have hemp : files.isEmpty = false := by
      simpa [List.isEmpty_iff] using hne
    have h : uploadWithOverwriteCheck gw fs cfg
        = (.ok (), [.find (overwriteParentId cfg) (pathFileName cfg.filePath)]) := by
      simp [uploadWithOverwriteCheck, hdir, hfind, hemp, hconf]
    exact ⟨h, by rw [h]; rfl⟩

/-- Witness for C8: in the recursive-directory branch the refusal `nope`
leaves only the read query in the trace; in the single-file branch with a
name collision the empty response also refuses, leaving only the read
query. -/
theorem c8_overwrite_guard_witness :
    uploadWithOverwriteCheck gwC2 (fsW treeW "nope" true) cfgW
      = (.ok (), [.children "P" 100])
    ∧ uploadWithOverwriteCheck gwFound (fsW treeW "" false) cfgW
      = (.ok (), [.find "P" "localdir"]) := by
  constructor
  · exact ((c8_overwrite_guard_semantics gwC2 (fsW treeW "nope" true) cfgW).2.1 rfl rfl
      (by decide) [abxcFile] [] rfl rfl).1
  · have h := ((c8_overwrite_guard_semantics gwFound (fsW treeW "" false) cfgW).2.2 rfl
      (by decide) [abxcFile] rfl (by decide)).1
    rw [h]
    rfl

/-- C9: when the user declines the overwrite prompt,
`upload_with_overwrite_check` returns `Ok(())` — at the function's result
type a cancelled transfer is indistinguishable from a completed one (and
`main.rs` only exits non-zero through `handle_error`, which runs only on an
`Err`). -/
theorem c9_refusal_returns_ok (gw : Gateway) (fs : LocalFs) (cfg : Config) :
    (fs.isDir cfg.filePath = true → cfg.uploadDirectories = true →
      confirmOverwrite fs.stdinLine = false →
      ∀ rfiles entries, gw.children (overwriteParentId cfg) 100 = .ok rfiles →
        fs.readDir cfg.filePath = .ok entries →
        (uploadWithOverwriteCheck gw fs cfg).1 = .ok ())
    ∧ (fs.isDir cfg.filePath = false →
      confirmOverwrite fs.stdinLine = false →
      ∀ files, gw.find (overwriteParentId cfg) (pathFileName cfg.filePath) = .ok files →
        files ≠ [] →
        (uploadWithOverwriteCheck gw fs cfg).1 = .ok ()) := by
  constructor
  · intro hdir hrec hconf rfiles entries hch hrd
    simp [uploadWithOverwriteCheck, hdir, hrec, hch, hrd, hconf]
  · intro hdir hconf files hfind hne
    have hemp : files.isEmpty = false := by
      simpa [List.isEmpty_iff] using hne
    simp [uploadWithOverwriteCheck, hdir, hfind, hemp, hconf]

/-- Witness for C9: both refusal paths return `Ok(())`. -/
theorem c9_refusal_returns_ok_witness :
    (uploadWithOverwriteCheck gwC2 (fsW treeW "n" true) cfgW).1 = .ok ()
    ∧ (uploadWithOverwriteCheck gwFound (fsW treeW "" false) cfgW).1 = .ok () :=
  ⟨(c9_refusal_returns_ok gwC2 (fsW treeW "n" true) cfgW).1 rfl rfl (by decide)
      [abxcFile] [] rfl rfl,
   (c9_refusal_returns_ok gwFound (fsW treeW "" false) cfgW).2 rfl (by decide)
      [abxcFile] rfl (by decide)⟩

/-- Helper: `phase1` reads only `parents` from the `Config`. -/
theorem phase1_parents_congr (gw : Gateway) (dcfg : UploadDelegateConfig)
    (cfg cfg' : Config) (hpar : cfg.parents = cfg'.parents) :
    ∀ fos m, phase1 gw cfg dcfg fos m = phase1 gw cfg' dcfg fos m := by
  intro fos
  induction fos with
  | nil => intro m; rfl
  | cons fo rest ih => intro m; simp only [phase1, hpar, ih]

/-- Helper: `phase2` reads only `parents` and `mime_type` from the
`Config`. -/
theorem phase2_parents_mime_congr (gw : Gateway) (fs : LocalFs)
    (dcfg : UploadDelegateConfig) (cfg cfg' : Config)
    (hpar : cfg.parents = cfg'.parents) (hmime : cfg.mimeType = cfg'.mimeType) :
    ∀ files m, phase2 gw fs cfg dcfg m files = phase2 gw fs cfg' dcfg m files := by
  intro files
  induction files with
  | nil => intro m; rfl
  | cons f rest ih => intro m; simp only [phase2, hpar, hmime, ih]

/-- Helper: `upload_directory` reads only `file_path`, `parents` and
`mime_type` from the `Config` (besides the delegate configuration it is
given explicitly). -/
theorem uploadDirectory_config_congr (gw : Gateway) (fs : LocalFs)
    (dcfg : UploadDelegateConfig) (cfg cfg' : Config)
    (hfp : cfg.filePath = cfg'.filePath) (hpar : cfg.parents = cfg'.parents)
    (hmime : cfg.mimeType = cfg'.mimeType) :
    uploadDirectory gw fs cfg dcfg = uploadDirectory gw fs cfg' dcfg := by
  simp only [uploadDirectory, hfp,
    phase1_parents_congr gw dcfg cfg cfg' hpar,
    phase2_parents_mime_congr gw fs dcfg cfg cfg' hpar hmime]

/-- A concrete local filesystem holding one 3 MiB regular file. -/
def fsSingle : LocalFs where
  isDir := fun _ => false
  openFile := fun _ => .ok ()
  size := fun _ => 3145728
  sniff := fun _ => "application/x-bin"
  openRel := fun _ => .ok ()
  sniffRel := fun _ => "application/x-bin"
  readDir := fun _ => .ok []
  tree := fun _ => .error "not a directory"
  stdinLine := "y"

/-- An upload `Config` for `big.bin` differing only in the chunk size. -/
def cfgChunk (mb : Nat) : Config :=
  ⟨"big.bin", none, some ["P"], ⟨mb⟩, false, false, false, false⟩

/-- C10: in the recursive-directory path of `upload_with_overwrite_check`
the confirmed transfer runs `upload_directory` with a default-constructed
delegate configuration, so the caller-configured chunk size and chunk
diagnostic flags in the `Config` (the fields `upload` would copy into the
delegate, together with its hard-coded backoff policy) cannot influence that
transfer; the plain `upload` path, by contrast, builds the delegate from the
`Config`, and its behaviour does change with the configured chunk size. -/
theorem c10_check_path_ignores_delegate_config :
    (∀ (gw : Gateway) (fs : LocalFs) (cfg : Config) (c : ChunkSize) (a b : Bool),
      fs.isDir cfg.filePath = true → cfg.uploadDirectories = true →
      uploadWithOverwriteCheck gw fs
        { cfg with chunkSize := c, printChunkErrors := a, printChunkInfo := b }
        = uploadWithOverwriteCheck gw fs cfg)
    ∧ (∀ (gw : Gateway) (fs : LocalFs) (cfg : Config),
      fs.isDir cfg.filePath = true → cfg.uploadDirectories = true →
      confirmOverwrite fs.stdinLine = true →
      ∀ rfiles entries, gw.children (overwriteParentId cfg) 100 = .ok rfiles →
        fs.readDir cfg.filePath = .ok entries →
        uploadWithOverwriteCheck gw fs cfg
          = ((uploadDirectory gw fs cfg default).1,
             .children (overwriteParentId cfg) 100
               :: (uploadDirectory gw fs cfg default).2))
    ∧ (upload gwC2 fsSingle (cfgChunk 1)).2 ≠ (upload gwC2 fsSingle (cfgChunk 4)).2 := by
  refine ⟨?_, ?_, ?_⟩
  · intro gw fs cfg c a b hdir hrec
    have hud : uploadDirectory gw fs
        { cfg with chunkSize := c, printChunkErrors := a, printChunkInfo := b,
                   uploadDirectories := true } default
        = uploadDirectory gw fs cfg default :=
      uploadDirectory_config_congr gw fs default _ cfg rfl rfl rfl
    simp [uploadWithOverwriteCheck, overwriteParentId, hdir, hrec, hud]
  · intro gw fs cfg hdir hrec hconf rfiles entries hch hrd
    rcases hrt : uploadDirectory gw fs cfg default with ⟨r, t⟩
    simp [uploadWithOverwriteCheck, hdir, hrec, hch, hrd, hconf, hrt]
  · decide

/-- Witness for C10: with the oracle `gwC2` and a refused prompt the
invariance is visible concretely, and with an accepted prompt the transfer
is the default-delegate `upload_directory` run. -/
theorem c10_check_path_witness :
    uploadWithOverwriteCheck gwC2 (fsW treeW "n" true)
        { cfgW with chunkSize := ⟨1⟩, printChunkErrors := true, printChunkInfo := true }
      = uploadWithOverwriteCheck gwC2 (fsW treeW "n" true) cfgW
    ∧ uploadWithOverwriteCheck gwC2 (fsW treeW "y" true) cfgW
      = ((uploadDirectory gwC2 (fsW treeW "y" true) cfgW default).1,
         .children "P" 100
           :: (uploadDirectory gwC2 (fsW treeW "y" true) cfgW default).2) := by
  constructor
  · exact c10_check_path_ignores_delegate_config.1 gwC2 (fsW treeW "n" true) cfgW
      ⟨1⟩ true true rfl rfl
  · exact c10_check_path_ignores_delegate_config.2.1 gwC2 (fsW treeW "y" true) cfgW
      rfl rfl (by decide) [abxcFile] [] rfl rfl

end Gdrive
